import Mathlib

/-
  Verification development for the hilink package (a Go client for the
  Huawei Hilink WebUI protocol).

  The development shallowly embeds the session/token/request engine of the
  package: the ordered XML request codec (xmlPairs, SimpleRequestXML), the
  response decoder (decodeXML and the ErrorCodeMessageMap table), the
  request engine (doReq, doReqCheckOK), the login exchange (doReqLogin,
  login, SetSessionAndTokenID) and the lazy session bootstrap of the
  context-based revision (start, here startV3).

  Conventions of the embedding:
  - Go byte slices and strings are Lean Strings; Go len(s) is
    String.utf8ByteSize.
  - The mxj parse result (mxj.Map, a Go map from string keys to either a
    string or a nested map) is XMap, an association list; Go map indexing
    is List.lookup; len of the map is List.length.  The raw HTTP body is
    carried as the outcome of the mxj parse (Except Unit XMap), since the
    third-party parser itself is outside the repository.
  - A Go panic (xmlPairs indexing out of range on an odd argument list, or
    the explicit even-length check) is Option.none: the function does not
    return a value.
  - The HTTP exchange is modelled by passing the HttpResponse the server
    would return; each operation also returns the list of requests it
    dispatched, so that pre-flight rejections can be observed as an empty
    list.  The sync.Mutex lock/unlock calls are erased: the embedding is
    sequential.
-/

/-- A decoded XML value as produced by mxj.NewMapXml: a leaf string or a
nested map of named children. -/
inductive XVal where
  | str (s : String)
  | map (m : List (String × XVal))

/-- The top level of an mxj parse result: a map from element names to
values, embedded as an association list. -/
abbrev XMap := List (String × XVal)

/-- The error values of the package (util.go / part_007), plus deviceError
for the fmt.Errorf value built by decodeXML from a device error envelope,
and parseError for an mxj parse failure. -/
inductive HErr where
  | badStatusCode
  | invalidResponse
  | invalidError
  | invalidValue
  | invalidXML
  | missingRootElement
  | messageTooLong
  | parseError
  | deviceError (code : Option XVal) (msg : String)

/-- Result of decodeXML: the whole top-level map (takeFirstEl = false,
dynamically an mxj.Map in Go) or the children of the single root element
(takeFirstEl = true, dynamically a map of string to interface). -/
inductive DecRes where
  | whole (m : XMap)
  | tree (t : XMap)

/-- ErrorCodeMessageMap from part_007: the static code-to-message table
for Hilink devices (string keys, includes the generic "-1" entry). -/
def ErrorCodeMessageMap : List (String × String) :=
  [("-1", "system not available"),
   ("100002", "not supported by firmware or incorrect API path"),
   ("100003", "access denied"),
   ("100004", "system busy"),
   ("100005", "unknown error"),
   ("100006", "invalid parameter"),
   ("100009", "write error"),
   ("103002", "unknown error"),
   ("103015", "unknown error"),
   ("108001", "invalid username"),
   ("108002", "invalid password"),
   ("108003", "user already logged in"),
   ("108006", "invalid username or password"),
   ("108007", "invalid username, password, or session timeout"),
   ("110024", "battery charge less than 50%"),
   ("111019", "no network response"),
   ("111020", "network timeout"),
   ("111022", "network not supported"),
   ("113018", "system busy"),
   ("114001", "file already exists"),
   ("114002", "file already exists"),
   ("114003", "SD card currently in use"),
   ("114004", "path does not exist"),
   ("114005", "path too long"),
   ("114006", "no permission for specified file or directory"),
   ("115001", "unknown error"),
   ("117001", "incorrect WiFi password"),
   ("117004", "incorrect WISPr password"),
   ("120001", "voice busy"),
   ("125001", "invalid token")]

/-- The message of a device error envelope z, as computed by decodeXML:
the string value of the message child when present and non-empty (a Go
type assertion with discarded failure yields the empty string otherwise),
else the table entry indexed by the string value of the code child (plain
Go map indexing: a missing key yields the empty string). -/
def deviceMsg (z : XMap) : String :=
  let msg := match z.lookup "message" with
    | some (XVal.str s) => s
    | _ => ""
  if msg = "" then
    let c := match z.lookup "code" with
      | some (XVal.str s) => s
      | _ => ""
    (ErrorCodeMessageMap.lookup c).getD ""
  else msg

/-- decodeXML from part_007 (identically Client.decodeXML in client.go),
applied to the outcome of the mxj parse of the body bytes.  Checks the
device error shape first, then requires exactly one top-level element,
then either returns the whole map or unwraps the single root. -/
def decodeXML (parsed : Except Unit XMap) (takeFirstEl : Bool) : Except HErr DecRes :=
  match parsed with
  | .error _ => .error .parseError
  | .ok m =>
    match m.lookup "error" with
    | some e =>
      match e with
      | XVal.map z => .error (.deviceError (z.lookup "code") (deviceMsg z))
      | _ => .error .invalidError
    | none =>
      if m.length ≠ 1 then .error .missingRootElement
      else if !takeFirstEl then .ok (.whole m)
      else
        match m with
        | [(_, XVal.map t)] => .ok (.tree t)
        | _ => .error .invalidXML

/-- View of a variadic string list as consecutive pairs, as traversed by
the loop of xmlPairs (index i and i+1, stepping by 2).  An odd-length list
reaches an out-of-range access (or the explicit even-length precondition
check, in the revisions that have it): none models the panic. -/
def toPairs : List String → Option (List (String × String))
  | [] => some []
  | [_] => none
  | n :: v :: rest => (toPairs rest).map (fun ps => (n, v) :: ps)

/-- The buffer written by the loop of xmlPairs for a list of pairs: one
line indent plus name, value, closing name per pair, in order. -/
def xmlPairsBuf (indent : String) : List (String × String) → String
  | [] => ""
  | p :: rest =>
      indent ++ "<" ++ p.1 ++ ">" ++ p.2 ++ "</" ++ p.1 ++ ">" ++ "\n"
        ++ xmlPairsBuf indent rest

/-- xmlPairs from util.go / part_007: formats name/value pairs as XML
lines; panics (none) on an odd-length argument list. -/
def xmlPairs (indent : String) (vals : List String) : Option String :=
  (toPairs vals).map (xmlPairsBuf indent)

/-- SimpleRequestXML from util.go / part_007 / hilink.go: the XML header,
a request element wrapping the formatted pairs, and a trailing newline.
Propagates the xmlPairs panic (none) on an odd-length argument list. -/
def SimpleRequestXML (vals : List String) : Option String :=
  (xmlPairs "  " vals).map (fun pairs =>
    "<?xml version=\"1.0\" encoding=\"UTF-8\"?>" ++ "\n<request>\n"
      ++ pairs ++ "</request>\n")

/-- boolToString from util.go: true to "1", false to "0". -/
def boolToString (b : Bool) : String :=
  if b then "1" else "0"

/-- Flattening of a pair sequence (name1, value1, ..., nameK, valueK) into
the variadic argument list passed to SimpleRequestXML. -/
def ofPairs : List (String × String) → List String
  | [] => []
  | p :: rest => p.1 :: p.2 :: ofPairs rest

theorem toPairs_ofPairs : ∀ ps : List (String × String), toPairs (ofPairs ps) = some ps
  | [] => rfl
  | p :: rest => by
      show (toPairs (ofPairs rest)).map (fun ps => (p.1, p.2) :: ps) = some (p :: rest)
      rw [toPairs_ofPairs rest]
      rfl

theorem strExt {s t : String} (h : s.data = t.data) : s = t := by
  rcases s with ⟨s⟩; rcases t with ⟨t⟩; cases h; rfl

theorem xmlPairsBuf_join (indent : String) :
    ∀ ps : List (String × String),
      xmlPairsBuf indent ps
        = String.join (ps.map (fun p =>
            indent ++ "<" ++ p.1 ++ ">" ++ p.2 ++ "</" ++ p.1 ++ ">" ++ "\n"))
  | [] => rfl
  | p :: rest => by
      apply strExt
      have ih := congrArg String.data (xmlPairsBuf_join indent rest)
      simp only [String.data_join] at ih
      simp only [xmlPairsBuf, String.data_append, String.data_join, List.map_cons,
        List.flatten_cons, ih, List.append_assoc]

theorem toPairs_isSome_iff : ∀ vals : List String,
    (toPairs vals).isSome = true ↔ vals.length % 2 = 0
  | [] => by simp [toPairs]
  | [a] => by simp [toPairs]
  | a :: b :: rest => by
      have ih := toPairs_isSome_iff rest
      cases h : toPairs rest with
      | none => simp [toPairs, h] at ih ⊢; omega
      | some ps => simp [toPairs, h] at ih ⊢; omega

/-- The mutable per-client session state of the Go Client struct.  The
cookie jar holding the single SessionID cookie is modelled by its value
(none: no jar installed yet).  The started flag exists only in the
context-based revision (part_000); the other revisions ignore it. -/
structure Client where
  nostart : Bool
  started : Bool
  authID : String
  authPW : String
  token : String
  cookie : Option String
deriving DecidableEq

/-- The client produced by NewClient before any option or exchange runs:
automatic start enabled, no credentials, empty token, no cookie jar. -/
def freshClient : Client :=
  { nostart := false, started := false, authID := "", authPW := "",
    token := "", cookie := none }

/-- The HTTP response the device returns for one exchange: status code,
the CSRF token header (TokenHeader, empty when absent), the login token
header (TokenHeaderLogin, empty when absent), the Set-Cookie header
(empty when absent), and the mxj parse outcome of the body bytes. -/
structure HttpResponse where
  status : Nat
  tokenHeader : String
  loginTokenHeader : String
  setCookie : String
  body : Except Unit XMap

/-- A request body: raw bytes (the []byte passthrough of encodeXML, fed by
SimpleRequestXML) or an XMLData map (mxj-encoded; its emission order is
not fixed by the Go map, so it is kept symbolic as its key/value list). -/
inductive ReqBody where
  | bytes (s : String)
  | xmlData (kvs : List (String × String))

/-- A dispatched HTTP request as built by createRequest/buildRequest:
GET without body when no data is given, POST carrying the body and the
current CSRF token header otherwise. -/
structure HttpRequest where
  method : String
  path : String
  body : Option ReqBody
  tokenHdr : Option String

/-- createRequest (hilink.go) / buildRequest (client.go, part_000). -/
def createRequest (cl : Client) (path : String) (v : Option ReqBody) : HttpRequest :=
  match v with
  | none => { method := "GET", path := path, body := none, tokenHdr := none }
  | some b => { method := "POST", path := path, body := some b, tokenHdr := some cl.token }

/-- doReq of client.go / hilink.go (and the exchange core of the part_000
doReq, after its start call): build the request, dispatch, reject any
status other than exactly 200 (http.StatusOK), save a non-empty CSRF
token header into the client, then read and decode the body.  Returns the
new client state, the decode outcome, and the dispatched requests. -/
def doReq (cl : Client) (path : String) (v : Option ReqBody) (r : HttpResponse)
    (takeFirstEl : Bool) : Client × Except HErr DecRes × List HttpRequest :=
  let req := createRequest cl path v
  if r.status ≠ 200 then (cl, .error .badStatusCode, [req])
  else
    let cl1 := if r.tokenHeader ≠ "" then { cl with token := r.tokenHeader } else cl
    (cl1, decodeXML r.body takeFirstEl, [req])

/-- doReqCheckOK: runs doReq in whole-map mode and reports success iff the
map holds a response key whose string value is "OK". -/
def doReqCheckOK (cl : Client) (path : String) (v : Option ReqBody) (r : HttpResponse) :
    Client × Except HErr Bool × List HttpRequest :=
  match doReq cl path v r false with
  | (cl1, .error e, reqs) => (cl1, .error e, reqs)
  | (cl1, .ok d, reqs) =>
    match d with
    | .whole m =>
      match m.lookup "response" with
      | none => (cl1, .error .invalidResponse, reqs)
      | some (XVal.str s) => (cl1, .ok (s == "OK"), reqs)
      | some _ => (cl1, .error .invalidValue, reqs)
    | _ => (cl1, .error .invalidResponse, reqs)

/-- SetSessionAndTokenID: replaces the cookie jar with one holding the
SessionID cookie and installs the token.  (The cookiejar.New and url.Parse
error returns cannot fire for a constructed client and are not modelled.) -/
def SetSessionAndTokenID (cl : Client) (sessionID tokenID : String) : Client :=
  { cl with cookie := some sessionID, token := tokenID }

/-- strings.TrimPrefix: drops p from the front of s when present (stated
on the character lists so that it evaluates by kernel reduction). -/
def dropPfx (s p : String) : String :=
  if p.data.isPrefixOf s.data then String.mk (s.data.drop p.data.length) else s

/-- The first element of strings.Split(s, ";"): the part of s before the
first semicolon (s itself when none occurs; the empty string stays
empty). -/
def takeToSemi (s : String) : String :=
  String.mk (s.data.takeWhile (fun c => c ≠ ';'))

/-- The session data extracted by doReqLogin from the login response. -/
structure LoginResponse where
  tokenID : String
  sessionID : String

/-- doReqLogin (hilink.go): like doReq in whole-map mode but without the
CSRF-token-header save; demands a response key with string value "OK"
(ErrInvalidResponse otherwise, ErrInvalidValue when non-string), then
reads the login token header (TokenHeaderLogin) and the first
semicolon-separated part of Set-Cookie stripped of the SessionID= tag.
Neither value is checked for presence: absent headers yield "". -/
def doReqLogin (cl : Client) (path : String) (v : Option ReqBody) (r : HttpResponse) :
    Client × Except HErr LoginResponse × List HttpRequest :=
  let req := createRequest cl path v
  if r.status ≠ 200 then (cl, .error .badStatusCode, [req])
  else
    match decodeXML r.body false with
    | .error e => (cl, .error e, [req])
    | .ok d =>
      match d with
      | .whole m =>
        match m.lookup "response" with
        | none => (cl, .error .invalidResponse, [req])
        | some (XVal.str s) =>
          if s ≠ "OK" then (cl, .error .invalidResponse, [req])
          else
            let tokenID := r.loginTokenHeader
            let cookie := takeToSemi r.setCookie
            let sessID := dropPfx cookie "SessionID="
            (cl, .ok { tokenID := tokenID, sessionID := sessID }, [req])
        | some _ => (cl, .error .invalidValue, [req])
      | _ => (cl, .error .invalidResponse, [req])

/-- login (hilink.go): skipped returning (false, nil) when no identifier
was configured; otherwise posts the double-hashed credentials to the login
endpoint via doReqLogin and installs the returned session id and token
together through SetSessionAndTokenID.  The hash composition (hashPw, a
helper of the repository that is not under src/) is passed as a function
parameter; the claims settled here hold for every choice of it. -/
def login (hashPw : String → String) (cl : Client) (r : HttpResponse) :
    Client × Except HErr Bool × List HttpRequest :=
  if cl.authID = "" then (cl, .ok false, [])
  else
    let tokenizedPW := hashPw (cl.authID ++ hashPw cl.authPW ++ cl.token)
    let body := (SimpleRequestXML
      ["Username", cl.authID, "Password", tokenizedPW, "password_type", "4"]).getD ""
    match doReqLogin cl "api/user/login" (some (ReqBody.bytes body)) r with
    | (cl1, .error e, reqs) => (cl1, .error e, reqs)
    | (cl1, .ok resp, reqs) =>
      (SetSessionAndTokenID cl1 resp.sessionID resp.tokenID, .ok true, reqs)

/-- SmsSend (client.go / part_000): rejects a message of 160 or more
bytes with ErrMessageTooLong before building or dispatching anything;
otherwise builds the ordered send-sms request (the repeated Phone fields
are themselves an even list, so the inner xmlPairs cannot panic and its
Option is collapsed with getD) and dispatches it via doReqCheckOK.  The
Date field (time.Now) is passed in as now. -/
def SmsSend (cl : Client) (r : HttpResponse) (msg : String) (dest : List String)
    (now : String) : Client × Except HErr Bool × List HttpRequest :=
  if 160 ≤ msg.utf8ByteSize then (cl, .error .messageTooLong, [])
  else
    let phones := dest.foldl (fun acc t => acc ++ ["Phone", t]) []
    let body := (SimpleRequestXML
      ["Index", "-1",
       "Phones", "\n" ++ ((xmlPairs "    " phones).getD ""),
       "Sca", "",
       "Content", msg,
       "Length", toString msg.utf8ByteSize,
       "Reserved", "1",
       "Date", now]).getD ""
    doReqCheckOK cl "api/sms/send-sms" (some (ReqBody.bytes body)) r

/-- login of the context-based revision (part_000 Client.login, here named
loginV3): skipped when no identifier is configured, otherwise posts the
XMLData login form through doReqCheckOK.  The sha256/base64/hex password
tokenization is passed in as hashPw (applied to authPW concatenated with
the current token, as in the source). -/
def loginV3 (hashPw : String → String) (cl : Client) (r : HttpResponse) :
    Client × Except HErr Bool × List HttpRequest :=
  if cl.authID = "" then (cl, .ok false, [])
  else
    let tokenizedPW := hashPw (cl.authPW ++ cl.token)
    doReqCheckOK cl "api/user/login"
      (some (ReqBody.xmlData
        [("Username", cl.authID), ("Password", tokenizedPW), ("password_type", "4")])) r

/-- NewSessionAndTokenID of the context-based revision (part_000): issues
the bodyless SesTokInfo read, requires SesInfo and TokInfo string fields,
and returns the session id stripped of the SessionID= tag plus the token.
The nested doReq is taken at its exchange core (the recursive start call
inside it is the identity on an already-started or non-starting client,
and deadlocks on the lock otherwise; the lock is erased here). -/
def newSessionAndTokenIDV3 (cl : Client) (r : HttpResponse) :
    Client × Except HErr (String × String) × List HttpRequest :=
  match doReq cl "api/webserver/SesTokInfo" none r true with
  | (cl1, .error e, reqs) => (cl1, .error e, reqs)
  | (cl1, .ok d, reqs) =>
    match d with
    | .tree vals =>
      match vals.lookup "SesInfo", vals.lookup "TokInfo" with
      | some (XVal.str s), some (XVal.str t) =>
        (cl1, .ok (dropPfx s "SessionID=", t), reqs)
      | _, _ => (cl1, .error .invalidResponse, reqs)
    | _ => (cl1, .error .invalidResponse, reqs)

/-- start of the context-based revision (part_000 Client.start, here named
startV3).  Guard order exactly as in the source: return nil immediately
when nostart is FALSE; return nil when already started; otherwise run the
bootstrap (SesTokInfo exchange, SetSessionAndTokenID, login) and set the
started flag.  sesResp and loginResp are the responses the device returns
to the two bootstrap exchanges. -/
def startV3 (hashPw : String → String) (cl : Client) (sesResp loginResp : HttpResponse) :
    Client × Except HErr Unit × List HttpRequest :=
  if !cl.nostart then (cl, .ok (), [])
  else if cl.started then (cl, .ok (), [])
  else
    match newSessionAndTokenIDV3 cl sesResp with
    | (cl1, .error e, reqs) => (cl1, .error e, reqs)
    | (cl1, .ok st, reqs) =>
      let cl2 := SetSessionAndTokenID cl1 st.1 st.2
      match loginV3 hashPw cl2 loginResp with
      | (cl3, .error e, reqs2) => (cl3, .error e, reqs ++ reqs2)
      | (cl3, .ok _, reqs2) => ({ cl3 with started := true }, .ok (), reqs ++ reqs2)

/-- doReq of the context-based revision (part_000): runs start first, then
performs its own exchange. -/
def doReqV3 (hashPw : String → String) (cl : Client) (sesResp loginResp : HttpResponse)
    (path : String) (v : Option ReqBody) (r : HttpResponse) (takeFirstEl : Bool) :
    Client × Except HErr DecRes × List HttpRequest :=
  match startV3 hashPw cl sesResp loginResp with
  | (cl1, .error e, reqs) => (cl1, .error e, reqs)
  | (cl1, .ok _, reqs) =>
    match doReq cl1 path v r takeFirstEl with
    | (cl2, res, reqs2) => (cl2, res, reqs ++ reqs2)

/-- Shared sample response: status 200, no token headers, body parsing to
a single response element with text OK. -/
def okResp : HttpResponse :=
  { status := 200, tokenHeader := "", loginTokenHeader := "", setCookie := "",
    body := .ok [("response", XVal.str "OK")] }

/-- C5: for every even-length sequence of strings, given as its pair view
(name1, value1, ..., nameK, valueK), SimpleRequestXML returns exactly the
XML header line, a newline, the request open tag, a newline, one
two-space-indented name/value line per pair in caller order (duplicates
preserved verbatim, no reordering, no escaping), then the request close
tag and a newline. -/
theorem c5_SimpleRequestXML_exact (ps : List (String × String)) :
    SimpleRequestXML (ofPairs ps)
      = some ("<?xml version=\"1.0\" encoding=\"UTF-8\"?>" ++ "\n<request>\n"
          ++ String.join (ps.map (fun p =>
               "  " ++ "<" ++ p.1 ++ ">" ++ p.2 ++ "</" ++ p.1 ++ ">" ++ "\n"))
          ++ "</request>\n") := by
  unfold SimpleRequestXML xmlPairs
  rw [toPairs_ofPairs]
  simp only [Option.map_some']
  rw [xmlPairsBuf_join]

/-- C10: an odd-length argument list makes SimpleRequestXML panic (no
value returned, modelled as none: the out-of-range access of the xmlPairs
loop, or the even-length precondition check in the revisions that have
one); every even-length argument list returns normally. -/
theorem c10_SimpleRequestXML_odd_panics (vals : List String) :
    (vals.length % 2 = 1 → SimpleRequestXML vals = none)
      ∧ (vals.length % 2 = 0 → (SimpleRequestXML vals).isSome = true) := by
  have h := toPairs_isSome_iff vals
  constructor
  · intro hodd
    have hnone : toPairs vals = none := by
      cases ht : toPairs vals with
      | none => rfl
      | some ps => rw [ht] at h; simp at h; omega
    simp [SimpleRequestXML, xmlPairs, hnone]
  · intro heven
    have hsome := h.mpr heven
    cases ht : toPairs vals with
    | none => rw [ht] at hsome; simp at hsome
    | some ps => simp [SimpleRequestXML, xmlPairs, ht]

/-- C10 witness: a concrete odd list panics; a concrete even list returns. -/
theorem c10_witness :
    SimpleRequestXML ["Index"] = none
      ∧ (SimpleRequestXML ["Index", "-1"]).isSome = true :=
  ⟨(c10_SimpleRequestXML_odd_panics ["Index"]).1 (by decide),
   (c10_SimpleRequestXML_odd_panics ["Index", "-1"]).2 (by decide)⟩

/-- C7: a decoded body with no top-level error element and a number of
top-level elements different from one fails with ErrMissingRootElement,
in both decode modes, rather than picking a first element. -/
theorem c7_decode_missing_root (b : Bool) (m : XMap)
    (hnoerr : m.lookup "error" = none) (hlen : m.length ≠ 1) :
    decodeXML (.ok m) b = .error .missingRootElement := by
  simp [decodeXML, hnoerr, hlen]

/-- C7 witness: a body with two top-level elements, and one with zero. -/
theorem c7_witness :
    decodeXML (.ok [("a", XVal.str "1"), ("b", XVal.str "2")]) true
        = .error .missingRootElement
      ∧ decodeXML (.ok []) false = .error .missingRootElement :=
  ⟨c7_decode_missing_root true [("a", XVal.str "1"), ("b", XVal.str "2")] rfl
      (by decide),
   c7_decode_missing_root false [] rfl (by decide)⟩

/-- C6: a successful boolean-mode decode (doReqCheckOK) yields true
exactly when the decoded tree holds a key literally named response whose
string value is "OK"; and a single response element with any other
literal text yields false with no error. -/
theorem c6_doReqCheckOK_ok_iff (cl : Client) (path : String) (v : Option ReqBody)
    (r : HttpResponse) (m : XMap)
    (hst : r.status = 200) (hb : r.body = .ok m)
    (hnoerr : m.lookup "error" = none) (hlen : m.length = 1) :
    ((doReqCheckOK cl path v r).2.1 = .ok true
        ↔ m.lookup "response" = some (XVal.str "OK"))
      ∧ (∀ x, m = [("response", XVal.str x)] → x ≠ "OK" →
          (doReqCheckOK cl path v r).2.1 = .ok false) := by
  have hdec : decodeXML r.body false = .ok (.whole m) := by
    simp [decodeXML, hb, hnoerr, hlen]
  have hdo : doReq cl path v r false
      = (if r.tokenHeader ≠ "" then { cl with token := r.tokenHeader } else cl,
         .ok (.whole m), [createRequest cl path v]) := by
    simp [doReq, hst, hdec]
  constructor
  · cases hresp : m.lookup "response" with
    | none =>
        simp [doReqCheckOK, hdo, hresp]
    | some xv =>
        cases xv with
        | str s =>
            simp only [doReqCheckOK, hdo, hresp]
            constructor
            · intro h
              have hs : (s == "OK") = true := by simpa using h
              have heq : s = "OK" := by simpa using hs
              rw [heq]
            · intro h
              have heq : s = "OK" := by simpa using h
              simp [heq]
        | map z =>
            simp [doReqCheckOK, hdo, hresp]
  · intro x hm hx
    subst hm
    have hresp : (([("response", XVal.str x)] : XMap).lookup "response")
        = some (XVal.str x) := by simp [List.lookup]
    simp [doReqCheckOK, hdo, hresp, hx]

/-- Sample response whose single response element holds text other than
OK. -/
def noResp : HttpResponse :=
  { status := 200, tokenHeader := "", loginTokenHeader := "", setCookie := "",
    body := .ok [("response", XVal.str "NO")] }

/-- C6 witness: a response element with text OK decodes to true, one with
other text decodes to false without error. -/
theorem c6_witness :
    (doReqCheckOK freshClient "api/dialup/dial" none okResp).2.1 = .ok true
      ∧ (doReqCheckOK freshClient "api/dialup/dial" none noResp).2.1 = .ok false :=
  ⟨((c6_doReqCheckOK_ok_iff freshClient "api/dialup/dial" none okResp
      [("response", XVal.str "OK")] rfl rfl rfl (by decide)).1).mpr rfl,
   (c6_doReqCheckOK_ok_iff freshClient "api/dialup/dial" none noResp
      [("response", XVal.str "NO")] rfl rfl rfl (by decide)).2 "NO" rfl (by decide)⟩

/-- C3 (amended): a decoded body holding a top-level error element never
yields a data or OK result; when the error element is a mapping, the
resulting device error carries the device-supplied message element when
it is present (as a non-empty string), otherwise the static table entry
for the code element, and for a code not present in the table the message
is the empty string (no generic fallback is consulted). -/
theorem c3_decode_error_envelope (b : Bool) (m : XMap) (e : XVal)
    (herr : m.lookup "error" = some e) :
    (∀ r, decodeXML (.ok m) b ≠ .ok r)
      ∧ (∀ z s, e = XVal.map z → z.lookup "message" = some (XVal.str s) → s ≠ "" →
          decodeXML (.ok m) b = .error (.deviceError (z.lookup "code") s))
      ∧ (∀ z c t, e = XVal.map z → z.lookup "message" = none →
          z.lookup "code" = some (XVal.str c) →
          ErrorCodeMessageMap.lookup c = some t →
          decodeXML (.ok m) b = .error (.deviceError (some (XVal.str c)) t))
      ∧ (∀ z c, e = XVal.map z → z.lookup "message" = none →
          z.lookup "code" = some (XVal.str c) →
          ErrorCodeMessageMap.lookup c = none →
          decodeXML (.ok m) b = .error (.deviceError (some (XVal.str c)) "")) := by
  refine ⟨?_, ?_, ?_, ?_⟩
  · intro r
    cases e with
    | str s => simp [decodeXML, herr]
    | map z => simp [decodeXML, herr]
  · intro z s hz hmsg hs
    subst hz
    simp [decodeXML, herr, deviceMsg, hmsg, hs]
  · intro z c t hz hmsg hcode htab
    subst hz
    simp [decodeXML, herr, deviceMsg, hmsg, hcode, htab]
  · intro z c hz hmsg hcode htab
    subst hz
    simp [decodeXML, herr, deviceMsg, hmsg, hcode, htab]

/-- C3 counterexample: for the error envelope with unknown code 999999
and no message, the message resolves to the empty string, not to the
generic "-1" table entry, refuting the fallback clause of the claim. -/
theorem c3_counterexample :
    decodeXML (.ok [("error", XVal.map [("code", XVal.str "999999")])]) true
        = .error (.deviceError (some (XVal.str "999999")) "")
      ∧ ErrorCodeMessageMap.lookup "999999" = none
      ∧ ErrorCodeMessageMap.lookup "-1" = some "system not available"
      ∧ ("" : String) ≠ "system not available" :=
  ⟨rfl, rfl, rfl, by decide⟩

/-- C3 witness: a message-less error with known code 108002 resolves to
the table entry "invalid password"; a device-supplied message wins. -/
theorem c3_witness :
    decodeXML (.ok [("error", XVal.map [("code", XVal.str "108002")])]) false
        = .error (.deviceError (some (XVal.str "108002")) "invalid password")
      ∧ decodeXML (.ok [("error", XVal.map
            [("code", XVal.str "108002"), ("message", XVal.str "denied")])]) false
          = .error (.deviceError (some (XVal.str "108002")) "denied") :=
  ⟨(c3_decode_error_envelope false [("error", XVal.map [("code", XVal.str "108002")])]
      (XVal.map [("code", XVal.str "108002")]) rfl).2.2.1
      [("code", XVal.str "108002")] "108002" "invalid password" rfl rfl rfl rfl,
   (c3_decode_error_envelope false
      [("error", XVal.map [("code", XVal.str "108002"), ("message", XVal.str "denied")])]
      (XVal.map [("code", XVal.str "108002"), ("message", XVal.str "denied")]) rfl).2.1
      [("code", XVal.str "108002"), ("message", XVal.str "denied")] "denied"
      rfl rfl (by decide)⟩

/-- C2 (amended): for every doReq exchange whose response has status
exactly 200 (http.StatusOK), the stored token is replaced by the
response's CSRF-token header value independently of the body — a body
that fails to decode still advances the token — and the token is the only
client field doReq modifies; an empty or absent token header leaves the
token unchanged; any other status (including other 2xx codes) yields
ErrBadStatusCode with the client unchanged. -/
theorem c2_doReq_token_update (cl : Client) (path : String) (v : Option ReqBody)
    (r : HttpResponse) (b : Bool) :
    (r.status = 200 → r.tokenHeader ≠ "" →
        (doReq cl path v r b).1 = { cl with token := r.tokenHeader }
          ∧ (doReq cl path v r b).2.1 = decodeXML r.body b)
      ∧ (r.status = 200 → r.tokenHeader = "" →
          (doReq cl path v r b).1 = cl
            ∧ (doReq cl path v r b).2.1 = decodeXML r.body b)
      ∧ (r.status ≠ 200 →
          (doReq cl path v r b).1 = cl
            ∧ (doReq cl path v r b).2.1 = .error .badStatusCode) := by
  refine ⟨?_, ?_, ?_⟩
  · intro hst htok
    simp [doReq, hst, htok]
  · intro hst htok
    simp [doReq, hst, htok]
  · intro hst
    simp [doReq, hst]

/-- Stale-token client used by the C2 counterexample. -/
def c2Client : Client := { freshClient with token := "stale" }

/-- A 201 response (a 2xx status) carrying a fresh token header. -/
def c2Resp201 : HttpResponse :=
  { status := 201, tokenHeader := "fresh", loginTokenHeader := "",
    setCookie := "", body := .ok [("response", XVal.str "OK")] }

/-- C2 counterexample: a 2xx exchange (status 201) carrying a non-empty
token header does not replace the stored token — the code accepts only
status 200 and returns ErrBadStatusCode leaving the token stale, refuting
the claim for 2xx statuses other than 200. -/
theorem c2_counterexample :
    c2Resp201.status / 100 = 2
      ∧ c2Resp201.tokenHeader = "fresh"
      ∧ (doReq c2Client "api/monitoring/status" none c2Resp201 true).1.token = "stale"
      ∧ (doReq c2Client "api/monitoring/status" none c2Resp201 true).2.1
          = .error .badStatusCode :=
  ⟨rfl, rfl, rfl, rfl⟩

/-- C2 witness: a 200 response with a token header and an undecodable
body still advances the token and only the token. -/
theorem c2_witness :
    (doReq c2Client "api/monitoring/status" none
        { status := 200, tokenHeader := "fresh", loginTokenHeader := "",
          setCookie := "", body := .error () } true).1
      = { c2Client with token := "fresh" } :=
  ((c2_doReq_token_update c2Client "api/monitoring/status" none
      { status := 200, tokenHeader := "fresh", loginTokenHeader := "",
        setCookie := "", body := .error () } true).1 rfl (by decide)).1

/-- C8 (amended): login is skipped without error (and without any
request) when no identifier was configured; when performed, a server
boolean result other than "OK" fails with the invalid-response error and
leaves the client unchanged; on an "OK" result the replacement values are
NOT validated — the token is the login token header as-is (empty when the
header is absent) and the session id is the first semicolon-separated
part of Set-Cookie stripped of the SessionID= tag (empty when absent) —
and both are installed together via SetSessionAndTokenID. -/
theorem c8_login (hashPw : String → String) (cl : Client) (r : HttpResponse) :
    (cl.authID = "" → login hashPw cl r = (cl, .ok false, []))
      ∧ (cl.authID ≠ "" → r.status = 200 → ∀ m s, r.body = .ok m →
          m.lookup "error" = none → m.length = 1 →
          m.lookup "response" = some (XVal.str s) →
          ((s ≠ "OK" → (login hashPw cl r).1 = cl
              ∧ (login hashPw cl r).2.1 = .error .invalidResponse)
            ∧ (s = "OK" →
                (login hashPw cl r).1
                    = SetSessionAndTokenID cl
                        (dropPfx (takeToSemi r.setCookie) "SessionID=")
                        r.loginTokenHeader
                  ∧ (login hashPw cl r).2.1 = .ok true))) := by
  constructor
  · intro hid
    simp [login, hid]
  · intro hid hst m s hb hnoerr hlen hresp
    have hdec : decodeXML r.body false = .ok (.whole m) := by
      simp [decodeXML, hb, hnoerr, hlen]
    constructor
    · intro hs
      simp [login, hid, doReqLogin, hst, hdec, hresp, hs]
    · intro hs
      subst hs
      simp [login, hid, doReqLogin, hst, hdec, hresp, SetSessionAndTokenID]

/-- Client with configured credentials used by the C8 theorems. -/
def c8Client : Client :=
  { freshClient with authID := "admin", authPW := "pw", token := "tok0" }

/-- A 200 "OK" login response with neither the login token header nor a
Set-Cookie header. -/
def c8RespNoValues : HttpResponse :=
  { status := 200, tokenHeader := "", loginTokenHeader := "", setCookie := "",
    body := .ok [("response", XVal.str "OK")] }

/-- C8 counterexample: an "OK" login response lacking both replacement
values (no login token header, no Set-Cookie) does not fail with the
invalid-response error as the claim requires: login succeeds and installs
the empty token and empty session id. -/
theorem c8_counterexample :
    c8RespNoValues.loginTokenHeader = ""
      ∧ c8RespNoValues.setCookie = ""
      ∧ (login (fun s => s) c8Client c8RespNoValues).2.1 = .ok true
      ∧ (login (fun s => s) c8Client c8RespNoValues).1.token = ""
      ∧ (login (fun s => s) c8Client c8RespNoValues).1.cookie = some "" :=
  ⟨rfl, rfl, rfl, rfl, rfl⟩

/-- A 200 "OK" login response carrying both replacement values. -/
def c8RespFull : HttpResponse :=
  { status := 200, tokenHeader := "", loginTokenHeader := "newTok",
    setCookie := "SessionID=sess1; Path=/", body := .ok [("response", XVal.str "OK")] }

/-- C8 witness: instantiates the amended theorem on a skipped login, a
failed boolean result, and a successful login carrying both values. -/
theorem c8_witness :
    login (fun s => s) freshClient c8RespFull = (freshClient, .ok false, [])
      ∧ (login (fun s => s) c8Client noResp).2.1 = .error .invalidResponse
      ∧ (login (fun s => s) c8Client c8RespFull).1
          = SetSessionAndTokenID c8Client
              (dropPfx (takeToSemi c8RespFull.setCookie) "SessionID=")
              c8RespFull.loginTokenHeader
      ∧ dropPfx (takeToSemi c8RespFull.setCookie) "SessionID=" = "sess1"
      ∧ c8RespFull.loginTokenHeader = "newTok" :=
  ⟨(c8_login (fun s => s) freshClient c8RespFull).1 rfl,
   (((c8_login (fun s => s) c8Client noResp).2 (by decide) rfl
      [("response", XVal.str "NO")] "NO" rfl rfl (by decide) rfl).1 (by decide)).2,
   (((c8_login (fun s => s) c8Client c8RespFull).2 (by decide) rfl
      [("response", XVal.str "OK")] "OK" rfl rfl (by decide) rfl).2 rfl).1,
   by decide, rfl⟩

theorem doReq_requests (cl : Client) (path : String) (v : Option ReqBody)
    (r : HttpResponse) (b : Bool) :
    (doReq cl path v r b).2.2 = [createRequest cl path v] := by
  unfold doReq
  split <;> rfl

theorem doReqCheckOK_requests (cl : Client) (path : String) (v : Option ReqBody)
    (r : HttpResponse) :
    (doReqCheckOK cl path v r).2.2 = [createRequest cl path v] := by
  have h := doReq_requests cl path v r false
  unfold doReqCheckOK
  rcases hdo : doReq cl path v r false with ⟨cl1, res, reqs⟩
  rw [hdo] at h
  simp only at h
  subst h
  rcases res with e | d
  · rfl
  · rcases d with m | t
    · rcases hl : m.lookup "response" with _ | xv
      · simp [hl]
      · rcases xv with s | z <;> simp [hl]
    · rfl

/-- C9: a message of 160 or more bytes is rejected with the
message-too-long error before any request is built or dispatched (the
transport records zero requests and the client is untouched); any shorter
message passes the length check and exactly one request is dispatched, to
the send-sms path. -/
theorem c9_SmsSend_length_check (cl : Client) (r : HttpResponse) (msg : String)
    (dest : List String) (now : String) :
    (160 ≤ msg.utf8ByteSize →
        SmsSend cl r msg dest now = (cl, .error .messageTooLong, []))
      ∧ (msg.utf8ByteSize < 160 →
          ∃ req, (SmsSend cl r msg dest now).2.2 = [req]
            ∧ req.path = "api/sms/send-sms" ∧ req.method = "POST") := by
  constructor
  · intro hlong
    simp [SmsSend, hlong]
  · intro hshort
    have hn : ¬ 160 ≤ msg.utf8ByteSize := by omega
    simp only [SmsSend, if_neg hn, doReqCheckOK_requests]
    exact ⟨_, rfl, rfl, rfl⟩

/-- A 160-byte message (160 ASCII characters). -/
def longMsg : String := String.mk (List.replicate 160 'a')

set_option maxRecDepth 8192 in
/-- C9 witness: the 160-byte message is rejected with zero dispatched
requests; a short message is dispatched as one POST to the send-sms
path. -/
theorem c9_witness :
    SmsSend freshClient okResp longMsg [] "2020-01-01 00:00:00"
        = (freshClient, .error .messageTooLong, [])
      ∧ ∃ req, (SmsSend freshClient okResp "hi" ["+100"] "2020-01-01 00:00:00").2.2
          = [req] ∧ req.path = "api/sms/send-sms" ∧ req.method = "POST" :=
  ⟨(c9_SmsSend_length_check freshClient okResp longMsg [] "2020-01-01 00:00:00").1
      (by decide),
   (c9_SmsSend_length_check freshClient okResp "hi" ["+100"] "2020-01-01 00:00:00").2
      (by decide)⟩

/-- Device response to the SesTokInfo bootstrap read: a single root whose
children carry the SesInfo and TokInfo strings. -/
def sesTokResp : HttpResponse :=
  { status := 200, tokenHeader := "", loginTokenHeader := "", setCookie := "",
    body := .ok [("response", XVal.map
      [("SesInfo", XVal.str "SessionID=abc"), ("TokInfo", XVal.str "tok1")])] }

/-- C1 (code bug): for a client created without the no-start option
(nostart = false, the NewClient default), start returns immediately — its
guard reads if not nostart then return nil — so no bootstrap exchange is
performed, the started flag stays false, the session state is untouched,
and doReq nonetheless dispatches its ordinary request; whereas a client
created WITH the no-start option (whose own documentation says it
disables automatic start) is the one that gets bootstrapped.  This
evaluates the part_000 code at the failing input. -/
theorem c1_start_guard_inverted :
    startV3 (fun s => s) freshClient sesTokResp okResp = (freshClient, .ok (), [])
      ∧ freshClient.nostart = false
      ∧ (doReqV3 (fun s => s) freshClient sesTokResp okResp
            "api/device/information" none okResp true).2.2
          = [createRequest freshClient "api/device/information" none]
      ∧ (doReqV3 (fun s => s) freshClient sesTokResp okResp
            "api/device/information" none okResp true).1.started = false
      ∧ (startV3 (fun s => s) { freshClient with nostart := true }
            sesTokResp okResp).1.started = true
      ∧ (startV3 (fun s => s) { freshClient with nostart := true }
            sesTokResp okResp).2.2
          = [createRequest { freshClient with nostart := true }
               "api/webserver/SesTokInfo" none] :=
  ⟨rfl, rfl, rfl, rfl, rfl, rfl⟩
